import Mathlib

/-!
A shallow embedding, in Lean 4, of the GDAX exchange adapter
(`python/ccxt/async/gdax.py`): its response parsers (markets, trades,
orders, OHLCV), the request-building methods (create/cancel order,
deposit, withdraw), the request signer and the HTTP-error classifier.

Conventions of the embedding:
* Python dicts whose values matter to the adapter are association lists;
  lookup returns the first binding (the adapter never builds duplicate
  keys).
* JSON / Python numbers are modelled as `ℚ` (the adapter only rearranges
  and subtracts them, so exact rationals are a faithful model of the
  float values involved).
* A raw JSON record read by a parser is a structure with one field per
  key that the source reads; keys the source reads through `safe_float` /
  `safe_string` (absence tolerated) are `Option`-valued, keys indexed
  directly (absence would be a Python `KeyError`) are plain fields.
* Helpers inherited from the base Exchange class (`safe_float`,
  `parse8601`, `implode_params`, `omit`, `urlencode`, `json`, `hmac`,
  base64) are not under `src/`; they are either taken as function
  parameters (when their output is opaque data for the claim at hand,
  e.g. `parse8601`) or modelled from the spec (the signing pipeline of
  spec §4.1/§4.2), as marked on each definition.
* Raising a Python exception is modelled with `Except`: `PyErr` covers
  both the ccxt error taxonomy and the plain Python errors
  (`KeyError`, `IndexError`, JSON decode errors) that the code can let
  escape.
-/

/-- A Python scalar value as it appears in request parameter dicts:
a string, a number, or `None`. -/
inductive PVal where
  | s (v : String)
  | n (v : ℚ)
  | pynone
  deriving DecidableEq, Repr

/-- Dict lookup (first binding wins) for string-valued association lists. -/
def lookupStr (d : List (String × String)) (k : String) : Option String :=
  match d with
  | [] => Option.none
  | (k2, v) :: rest => if k2 = k then some v else lookupStr rest k

/-- Dict lookup (first binding wins) for `PVal`-valued association lists. -/
def lookupPV (d : List (String × PVal)) (k : String) : Option PVal :=
  match d with
  | [] => Option.none
  | (k2, v) :: rest => if k2 = k then some v else lookupPV rest k

/-- Python `key in dict` on an association list. -/
def hasKey (d : List (String × PVal)) (k : String) : Bool :=
  match d with
  | [] => false
  | (k2, _) :: rest => k2 = k || hasKey rest k

/-- `self.extend(a, b)`: dict union where `b`'s bindings override `a`'s.
With first-binding-wins lookup, listing `b` first gives `b` priority. -/
def extend (a b : List (String × PVal)) : List (String × PVal) :=
  b ++ a

/-- The ccxt error taxonomy used by this adapter. -/
inductive CcxtErr where
  | exchangeError (msg : String)
  | notSupported (msg : String)
  | authenticationError (msg : String)
  | insufficientFunds (msg : String)
  | invalidOrder (msg : String)
  deriving DecidableEq, Repr

/-- An exception escaping a method: a ccxt error or a plain Python error
(`body[0]` on an empty string, `json.loads` on a malformed body,
`dict[k]` on a missing key). -/
inductive PyErr where
  | ccxt (e : CcxtErr)
  | indexError
  | jsonDecodeError
  | keyError (k : String)
  deriving DecidableEq, Repr

/-- `parse_ohlcv` (gdax.py line 310): reorders one raw candle
`[time, low, high, open, close, volume]` by index —
`[ohlcv[0]*1000, ohlcv[3], ohlcv[2], ohlcv[1], ohlcv[4], ohlcv[5]]`.
Python indexing out of range raises, hence the `Option`. -/
def parse_ohlcv (ohlcv : List ℚ) : Option (List ℚ) := do
  let t0 ← ohlcv.get? 0
  let x3 ← ohlcv.get? 3
  let x2 ← ohlcv.get? 2
  let x1 ← ohlcv.get? 1
  let x4 ← ohlcv.get? 4
  let x5 ← ohlcv.get? 5
  pure [t0 * 1000, x3, x2, x1, x4, x5]

/-- A raw market record as returned by the exchange's products endpoint,
with exactly the keys `fetch_markets` reads. Numeric limits arrive as
strings and go through Python `float(...)`; `quote_increment` is read
both through `safe_float` and through `safe_string` +
`precision_from_string`, so it is kept as the raw `Option String`. -/
structure RawMarket where
  id : String
  base_currency : String
  quote_currency : String
  quote_increment : Option String
  base_min_size : String
  base_max_size : String
  min_market_funds : String
  max_market_funds : String
  status : String
  deriving DecidableEq, Repr

/-- A normalized market, flattening the nested dict built by
`fetch_markets` (gdax.py lines 162-182) plus the `fees['trading']`
fields merged in by `self.extend`. -/
structure Market where
  id : String
  symbol : String
  base : String
  quote : String
  precision_amount : ℤ
  precision_price : Option ℤ
  limits_amount_min : ℚ
  limits_amount_max : ℚ
  limits_price_min : Option ℚ
  limits_price_max : Option ℚ
  limits_cost_min : ℚ
  limits_cost_max : ℚ
  tierBased : Bool
  percentage : Bool
  maker : ℚ
  taker : ℚ
  active : Bool
  info : RawMarket
  deriving DecidableEq, Repr

/-- The loop body of `fetch_markets` (gdax.py lines 144-182) for one raw
product. `toF` stands for Python `float(...)`/`safe_float` string
conversion and `pfs` for the base-class `precision_from_string`, both
external to this module. The trading-fee constants come from `describe`
(maker 0.0, taker 0.25%); ETH/LTC bases get taker 0.3%. -/
def parse_market (toF : String → ℚ) (pfs : String → ℤ) (market : RawMarket) :
    Market :=
  let base := market.base_currency
  let quote := market.quote_currency
  let taker : ℚ := if base = "ETH" ∨ base = "LTC" then 3 / 1000 else 25 / 10000
  { id := market.id
    symbol := base ++ "/" ++ quote
    base := base
    quote := quote
    precision_amount := 8
    precision_price := market.quote_increment.map pfs
    limits_amount_min := toF market.base_min_size
    limits_amount_max := toF market.base_max_size
    limits_price_min := market.quote_increment.map toF
    limits_price_max := Option.none
    limits_cost_min := toF market.min_market_funds
    limits_cost_max := toF market.max_market_funds
    tierBased := true
    percentage := true
    maker := 0
    taker := taker
    active := market.status = "online"
    info := market }

/-- `fetch_markets` (gdax.py line 141): maps the raw product list through
the loop body, in order. -/
def fetch_markets (toF : String → ℚ) (pfs : String → ℤ)
    (markets : List RawMarket) : List Market :=
  markets.map (parse_market toF pfs)

/-- A concrete raw market used by the C5 witness. -/
def rawMarketBtcUsd : RawMarket :=
  { id := "BTC-USD", base_currency := "BTC", quote_currency := "USD"
    quote_increment := some "0.01", base_min_size := "0.001"
    base_max_size := "10000", min_market_funds := "10"
    max_market_funds := "1000000", status := "online" }

/-- A raw fill/trade record with exactly the keys `parse_trade` reads.
`price` and `size` are indexed directly (mandatory); the rest go through
`in`-checks or `safe_string`. `fill_fees`, `price` and `size` are held
as the numbers their strings convert to. -/
structure RawTrade where
  time : Option String
  created_at : Option String
  side : String
  product_id : Option String
  fill_fees : Option ℚ
  liquidity : Option String
  trade_id : Option String
  order_id : Option String
  price : ℚ
  size : ℚ
  deriving DecidableEq, Repr

/-- The fee sub-dict of a parsed trade. -/
structure TradeFee where
  cost : ℚ
  currency : Option String
  rate : Option ℚ
  deriving DecidableEq, Repr

/-- A normalized trade as returned by `parse_trade`. -/
structure Trade where
  id : Option String
  order : Option String
  info : RawTrade
  timestamp : Option ℤ
  datetime : Option String
  symbol : Option String
  type : Option String
  side : String
  price : ℚ
  amount : ℚ
  fee : Option TradeFee
  deriving DecidableEq, Repr

/-- `parse_trade` (gdax.py lines 243-288). `p8601` stands for the
base-class `parse8601` (ISO-8601 string to milliseconds, possibly None)
and `iso` for `iso8601` (milliseconds to ISO string); `marketsById` is
the `markets_by_id` cache and `marketArg` the optional market argument. -/
def parse_trade (p8601 : String → Option ℤ) (iso : ℤ → String)
    (marketsById : List (String × Market)) (marketArg : Option Market)
    (trade : RawTrade) : Trade :=
  let timestamp : Option ℤ :=
    match trade.time with
    | some t => p8601 t
    | Option.none =>
      match trade.created_at with
      | some c => p8601 c
      | Option.none => Option.none
  let datetime : Option String := timestamp.map iso
  let side : String := if trade.side = "buy" then "sell" else "buy"
  let market : Option Market :=
    match marketArg with
    | some m => some m
    | Option.none =>
      match trade.product_id with
      | some pid =>
        match marketsById.lookup pid with
        | some m => some m
        | Option.none => Option.none
      | Option.none => Option.none
  let symbol : Option String := market.map Market.symbol
  let fee : Option TradeFee :=
    match trade.fill_fees with
    | some fc =>
      some { cost := fc, currency := market.map Market.quote, rate := Option.none }
    | Option.none => Option.none
  let type : Option String :=
    trade.liquidity.map (fun l => if l = "T" then "Taker" else "Maker")
  { id := trade.trade_id
    order := trade.order_id
    info := trade
    timestamp := timestamp
    datetime := datetime
    symbol := symbol
    type := type
    side := side
    price := trade.price
    amount := trade.size
    fee := fee }

/-- A concrete raw trade used by the C2 witness. -/
def rawTradeBuy : RawTrade :=
  { time := Option.none, created_at := Option.none, side := "buy"
    product_id := Option.none, fill_fees := Option.none
    liquidity := Option.none, trade_id := Option.none
    order_id := Option.none, price := 100, size := 1 }

/-- A raw order record with exactly the keys `parse_order` reads.
`created_at`, `product_id`, `status`, `id`, `type` and `side` are
indexed directly; the numeric keys go through `safe_float` and are
`Option`-valued. -/
structure RawOrder where
  id : String
  created_at : String
  product_id : String
  status : String
  type : String
  side : String
  price : Option ℚ
  size : Option ℚ
  funds : Option ℚ
  specified_funds : Option ℚ
  filled_size : Option ℚ
  executed_value : Option ℚ
  fill_fees : Option ℚ
  deriving DecidableEq, Repr

/-- The fee sub-dict of a parsed order (cost may be absent). -/
structure OrderFee where
  cost : Option ℚ
  currency : Option String
  rate : Option ℚ
  deriving DecidableEq, Repr

/-- A normalized order as returned by `parse_order`. -/
structure Order where
  id : String
  info : RawOrder
  timestamp : Option ℤ
  datetime : Option String
  status : String
  symbol : Option String
  type : String
  side : String
  price : Option ℚ
  cost : Option ℚ
  amount : Option ℚ
  filled : Option ℚ
  remaining : Option ℚ
  fee : OrderFee
  deriving DecidableEq, Repr

/-- `parse_order_status` (gdax.py lines 341-349): fixed lookup table;
unmapped states pass through unchanged. -/
def parse_order_status (status : String) : String :=
  let statuses : List (String × String) :=
    [("pending", "open"), ("active", "open"), ("open", "open"),
     ("done", "closed"), ("canceled", "canceled")]
  (lookupStr statuses status).getD status

/-- `parse_order` (gdax.py lines 351-392). `p8601` / `iso` stand for the
base-class timestamp helpers; `marketsById` is the `markets_by_id` cache
and `marketArg` the optional market argument. -/
def parse_order (p8601 : String → Option ℤ) (iso : ℤ → String)
    (marketsById : List (String × Market)) (marketArg : Option Market)
    (order : RawOrder) : Order :=
  let timestamp : Option ℤ := p8601 order.created_at
  let market : Option Market :=
    match marketArg with
    | some m => some m
    | Option.none =>
      match marketsById.lookup order.product_id with
      | some m => some m
      | Option.none => Option.none
  let status := parse_order_status order.status
  let price := order.price
  let amount : Option ℚ :=
    match order.size with
    | some s => some s
    | Option.none =>
      match order.funds with
      | some f => some f
      | Option.none => order.specified_funds
  let filled := order.filled_size
  let remaining : Option ℚ :=
    match amount with
    | some a =>
      match filled with
      | some f => some (a - f)
      | Option.none => Option.none
    | Option.none => Option.none
  let cost := order.executed_value
  let fee : OrderFee :=
    { cost := order.fill_fees, currency := Option.none, rate := Option.none }
  { id := order.id
    info := order
    timestamp := timestamp
    datetime := timestamp.map iso
    status := status
    symbol := market.map Market.symbol
    type := order.type
    side := order.side
    price := price
    cost := cost
    amount := amount
    filled := filled
    remaining := remaining
    fee := fee }

/-- A concrete raw order (all optional fields absent) used by witnesses. -/
def rawOrderBase : RawOrder :=
  { id := "o1", created_at := "2018-01-01T00:00:00Z", product_id := "BTC-USD"
    status := "open", type := "limit", side := "buy"
    price := Option.none, size := Option.none, funds := Option.none
    specified_funds := Option.none, filled_size := Option.none
    executed_value := Option.none, fill_fees := Option.none }

/-- The `\x7b` character, written by code point to keep braces out of
source literals. -/
def openBrace : Char := Char.ofNat 123

/-- The `\x7d` character. -/
def closeBrace : Char := Char.ofNat 125

/-- Whether `p` is a prefix of `l` (character lists). -/
def listHasPfx : List Char → List Char → Bool
  | [], _ => true
  | _ :: _, [] => false
  | p :: ps, c :: cs => p = c && listHasPfx ps cs

/-- Whether `pat` occurs somewhere in `l`; `Python str.find(pat) >= 0`. -/
def containsAux (pat : List Char) : List Char → Bool
  | [] => listHasPfx pat []
  | c :: cs => listHasPfx pat (c :: cs) || containsAux pat cs

/-- Python `s.find(pat) >= 0`: substring containment. -/
def strContains (s pat : String) : Bool :=
  containsAux pat.data s.data

/-- Reads the characters of a double-quoted JSON string (opening quote
already consumed) up to the closing quote; escapes are out of scope of
this mini-grammar (a backslash fails the parse). -/
def quotedAux : List Char → List Char → Option (String × List Char)
  | [], _ => Option.none
  | c :: r, acc =>
    if c = '"' then some (String.mk acc.reverse, r)
    else if c = '\\' then Option.none
    else quotedAux r (c :: acc)

/-- Parses a double-quoted JSON string literal. -/
def parseQuoted (l : List Char) : Option (String × List Char) :=
  match l with
  | c :: rest => if c = '"' then quotedAux rest [] else Option.none
  | [] => Option.none

/-- Parses one `"key":"value"` pair. -/
def parsePair (l : List Char) : Option ((String × String) × List Char) :=
  match parseQuoted l with
  | some (k, r1) =>
    match r1 with
    | c :: r2 =>
      if c = ':' then
        match parseQuoted r2 with
        | some (v, r3) => some ((k, v), r3)
        | Option.none => Option.none
      else Option.none
    | [] => Option.none
  | Option.none => Option.none

/-- Parses the pairs of a JSON object after the opening brace, expecting
the closing brace to end the input; `fuel` bounds the recursion. -/
def entriesAux : Nat → List Char → Option (List (String × String))
  | 0, _ => Option.none
  | fuel + 1, l =>
    match parsePair l with
    | some (kv, r) =>
      match r with
      | [c] => if c = closeBrace then some [kv] else Option.none
      | c :: r2 =>
        if c = ',' then
          match entriesAux fuel r2 with
          | some rest => some (kv :: rest)
          | Option.none => Option.none
        else Option.none
      | [] => Option.none
    | Option.none => Option.none

/-- Modelled from the spec: the stdlib `json.loads`, restricted to the
flat string-to-string objects this adapter's error bodies carry. Returns
`none` (a JSON decode failure) on anything else. -/
def jsonLoads (s : String) : Option (List (String × String)) :=
  match s.data with
  | [] => Option.none
  | c :: rest =>
    if c = openBrace then
      match rest with
      | [d] => if d = closeBrace then some [] else Option.none
      | _ => entriesAux rest.length rest
    else Option.none

/-- `handle_errors` (gdax.py lines 536-551): on HTTP 400, inspect the
first character of the body; a brace means parse JSON and classify the
`message` field through the if-chain, anything else raises a generic
ExchangeError with the raw body. `body[0]` on an empty body is a Python
IndexError, a malformed JSON body a decode error, and a missing
`message` key a KeyError. Non-400 codes do nothing. -/
def handle_errors (code : ℤ) (body : String) : Except PyErr Unit :=
  if code = 400 then
    match body.data with
    | [] => Except.error PyErr.indexError
    | c :: _ =>
      if c = openBrace then
        match jsonLoads body with
        | some response =>
          match lookupStr response "message" with
          | some message =>
            let errmsg := "gdax " ++ message
            if strContains message "price too small" then
              Except.error (PyErr.ccxt (CcxtErr.invalidOrder errmsg))
            else if strContains message "price too precise" then
              Except.error (PyErr.ccxt (CcxtErr.invalidOrder errmsg))
            else if message = "Insufficient funds" then
              Except.error (PyErr.ccxt (CcxtErr.insufficientFunds errmsg))
            else if message = "Invalid API Key" then
              Except.error (PyErr.ccxt (CcxtErr.authenticationError errmsg))
            else
              Except.error (PyErr.ccxt (CcxtErr.exchangeError ("gdax " ++ message)))
          | Option.none => Except.error (PyErr.keyError "message")
        | Option.none => Except.error PyErr.jsonDecodeError
      else Except.error (PyErr.ccxt (CcxtErr.exchangeError ("gdax " ++ body)))
  else Except.ok ()

/-- `create_order` (gdax.py lines 435-450): builds the POST-orders
request dict; the `price` key is added exactly when the type is
"limit", holding the raw `price` argument (`None` becomes JSON null).
`marketIdOf` stands for the base-class `market_id` symbol lookup. The
result is the called endpoint and its parameter dict. -/
def create_order (marketIdOf : String → String) (market type side : String)
    (amount : ℚ) (price : Option ℚ) (params : List (String × PVal)) :
    String × List (String × PVal) :=
  let order : List (String × PVal) :=
    [("product_id", PVal.s (marketIdOf market)), ("side", PVal.s side),
     ("size", PVal.n amount), ("type", PVal.s type)]
  let order :=
    if type = "limit" then
      order ++ [("price", match price with
                          | some p => PVal.n p
                          | Option.none => PVal.pynone)]
    else order
  ("privatePostOrders", extend order params)

/-- `cancel_order` (gdax.py lines 452-454): calls
`privateDeleteOrdersId` with the dict `\x7b'id': id\x7d` only; the
`symbol` argument and the extra `params` are not used. -/
def cancel_order (id : String) (_symbol : Option String)
    (_params : List (String × PVal)) : String × List (String × PVal) :=
  ("privateDeleteOrdersId", [("id", PVal.s id)])

/-- A transport response for deposit/withdraw: `None` or a JSON dict. -/
inductive Resp where
  | pynone
  | dict (kvs : List (String × PVal))
  deriving DecidableEq, Repr

/-- Python truthiness test `not response` for a response value. -/
def respFalsy : Resp → Bool
  | Resp.pynone => true
  | Resp.dict kvs => kvs.isEmpty

/-- `json.dumps` of a scalar. Integral numbers render as in Python;
non-integral rationals render as fractions (no claim exercises the
decimal rendering of floats). -/
def pvalJson : PVal → String
  | PVal.s v => "\"" ++ v ++ "\""
  | PVal.n q => if q.den = 1 then toString q.num else toString q.num ++ "/" ++ toString q.den
  | PVal.pynone => "null"

/-- Modelled from the spec: the base-class `self.json` (stdlib
`json.dumps` with default separators) on a flat dict. -/
def dictJson (kvs : List (String × PVal)) : String :=
  String.singleton openBrace
    ++ String.intercalate ", "
        (kvs.map (fun kv => "\"" ++ kv.1 ++ "\": " ++ pvalJson kv.2))
    ++ String.singleton closeBrace

/-- `self.json(response)` for a deposit/withdraw response. -/
def respJson : Resp → String
  | Resp.pynone => "null"
  | Resp.dict kvs => dictJson kvs

/-- The result dict `\x7b'info': response, 'id': response['id']\x7d`
shared by `deposit` and `withdraw`. -/
structure FundingOut where
  info : Resp
  id : PVal
  deriving DecidableEq, Repr

/-- The common tail of `deposit`/`withdraw` (gdax.py lines 479-484 and
501-506): a falsy response raises ExchangeError with the JSON-encoded
response, otherwise the result is the id field plus the raw response.
(`response['id']` on a truthy dict without an id is a Python KeyError;
a truthy non-dict cannot reach the lookup and is mapped to the same
error constructor.) -/
def fundingOutcome (opName : String) (response : Resp) : Except PyErr FundingOut :=
  if respFalsy response then
    Except.error (PyErr.ccxt (CcxtErr.exchangeError
      ("gdax " ++ opName ++ "() error: " ++ respJson response)))
  else
    match response with
    | Resp.dict kvs =>
      match lookupPV kvs "id" with
      | some i => Except.ok { info := response, id := i }
      | Option.none => Except.error (PyErr.keyError "id")
    | Resp.pynone => Except.error (PyErr.keyError "id")

/-- `deposit` (gdax.py lines 460-484): routes on the extra params —
`payment_method_id`, else `coinbase_account_id`, else NotSupported
before any request is issued. `respond` stands for the external
transport (endpoint name and request dict to response). -/
def deposit (currency : String) (amount : ℚ) (_address : String)
    (params : List (String × PVal))
    (respond : String → List (String × PVal) → Resp) : Except PyErr FundingOut :=
  let request : List (String × PVal) :=
    [("currency", PVal.s currency), ("amount", PVal.n amount)]
  if hasKey params "payment_method_id" then
    fundingOutcome "deposit" (respond "privatePostDepositsPaymentMethod" (extend request params))
  else if hasKey params "coinbase_account_id" then
    fundingOutcome "deposit" (respond "privatePostDepositsCoinbaseAccount" (extend request params))
  else
    Except.error (PyErr.ccxt (CcxtErr.notSupported
      "gdax deposit() requires one of `coinbase_account_id` or `payment_method_id` extra params"))

/-- `withdraw` (gdax.py lines 486-506): same routing, but with no
routing key it falls through to a crypto withdrawal, adding the
`address` argument to the request as `crypto_address`. -/
def withdraw (currency : String) (amount : ℚ) (address : String)
    (_tag : Option String) (params : List (String × PVal))
    (respond : String → List (String × PVal) → Resp) : Except PyErr FundingOut :=
  let request : List (String × PVal) :=
    [("currency", PVal.s currency), ("amount", PVal.n amount)]
  if hasKey params "payment_method_id" then
    fundingOutcome "withdraw" (respond "privatePostWithdrawalsPaymentMethod" (extend request params))
  else if hasKey params "coinbase_account_id" then
    fundingOutcome "withdraw" (respond "privatePostWithdrawalsCoinbaseAccount" (extend request params))
  else
    fundingOutcome "withdraw" (respond "privatePostWithdrawalsCrypto"
      (extend (request ++ [("crypto_address", PVal.s address)]) params))

/-- One segment of an endpoint path template: a literal piece or a
named placeholder (Python `'products/...id.../book'`-style templates,
modelled structurally so no braces appear in string literals). -/
inductive PathSeg where
  | lit (s : String)
  | prm (name : String)
  deriving DecidableEq, Repr

/-- Python `str(value)` for a request parameter value. -/
def pvalText : PVal → String
  | PVal.s v => v
  | PVal.n q => if q.den = 1 then toString q.num else toString q.num ++ "/" ++ toString q.den
  | PVal.pynone => "None"

/-- Modelled from the spec: the base-class `implode_params` — path
placeholders are substituted from the parameter set. -/
def implodeParams : List PathSeg → List (String × PVal) → String
  | [], _ => ""
  | PathSeg.lit s :: rest, ps => s ++ implodeParams rest ps
  | PathSeg.prm n :: rest, ps =>
    pvalText ((lookupPV ps n).getD (PVal.s "")) ++ implodeParams rest ps

/-- Modelled from the spec: the base-class `extract_params` — the
placeholder names of a path template. -/
def extractParams : List PathSeg → List String
  | [] => []
  | PathSeg.lit _ :: rest => extractParams rest
  | PathSeg.prm n :: rest => n :: extractParams rest

/-- Modelled from the spec: the base-class `omit` — drop the bindings
whose keys were consumed by path placeholders. -/
def omitKeys (params : List (String × PVal)) (names : List String) :
    List (String × PVal) :=
  params.filter (fun kv => !(names.contains kv.1))

/-- Unreserved URL characters (RFC 3986). -/
def isUrlSafe (c : Char) : Bool :=
  c.isAlphanum || c = '-' || c = '_' || c = '.' || c = '~'

/-- Upper-case hexadecimal digit. -/
def hexDigit (n : Nat) : Char :=
  "0123456789ABCDEF".data.getD n '0'

/-- UTF-8 encoding of one character (the base-class `self.encode`). -/
def utf8Char (c : Char) : List Nat :=
  let n := c.toNat
  if n < 128 then [n]
  else if n < 2048 then [192 + n / 64, 128 + n % 64]
  else if n < 65536 then [224 + n / 4096, 128 + n / 64 % 64, 128 + n % 64]
  else [240 + n / 262144, 128 + n / 4096 % 64, 128 + n / 64 % 64, 128 + n % 64]

/-- UTF-8 encoding of a string as a byte list. -/
def utf8Bytes (s : String) : List Nat :=
  s.data.foldr (fun c acc => utf8Char c ++ acc) []

/-- Percent-encoding of one character. -/
def percentEncodeChar (c : Char) : List Char :=
  if isUrlSafe c then [c]
  else (utf8Char c).foldr (fun b acc => '%' :: hexDigit (b / 16) :: hexDigit (b % 16) :: acc) []

/-- Percent-encoding of a string. -/
def percentEncode (s : String) : String :=
  String.mk (s.data.foldr (fun c acc => percentEncodeChar c ++ acc) [])

/-- Modelled from the spec: the base-class `urlencode` — `k=v` pairs
joined with `&`, keys and stringified values percent-encoded. -/
def urlencode (q : List (String × PVal)) : String :=
  String.intercalate "&"
    (q.map (fun kv => percentEncode kv.1 ++ "=" ++ percentEncode (pvalText kv.2)))

/-- The base64 alphabet. -/
def b64Alphabet : List Char :=
  "ABCDEFGHIJKLMNOPQRSTUVWXYZabcdefghijklmnopqrstuvwxyz0123456789+/".data

/-- The base64 character of a 6-bit value. -/
def b64Char (n : Nat) : Char := b64Alphabet.getD n 'A'

/-- The 6-bit value of a base64 character. -/
def b64ValAux : List Char → Nat → Char → Nat
  | [], _, _ => 0
  | a :: rest, i, c => if a = c then i else b64ValAux rest (i + 1) c

/-- Index of a character in the base64 alphabet. -/
def b64Val (c : Char) : Nat := b64ValAux b64Alphabet 0 c

/-- Modelled from the spec: base64 encoding of a byte list (stdlib
`base64.b64encode`), three bytes to four characters with `=` padding. -/
def b64EncodeAux : List Nat → List Char
  | [] => []
  | [a] => [b64Char (a / 4), b64Char (a % 4 * 16), '=', '=']
  | [a, b] => [b64Char (a / 4), b64Char (a % 4 * 16 + b / 16), b64Char (b % 16 * 4), '=']
  | a :: b :: c :: rest =>
    b64Char (a / 4) :: b64Char (a % 4 * 16 + b / 16)
      :: b64Char (b % 16 * 4 + c / 64) :: b64Char (c % 64) :: b64EncodeAux rest

/-- Base64 encoding of a byte list as a string. -/
def base64Encode (bs : List Nat) : String := String.mk (b64EncodeAux bs)

/-- Modelled from the spec: base64 decoding (stdlib `base64.b64decode`)
of a well-padded base64 string, four characters to three bytes. -/
def b64DecodeAux : List Char → List Nat
  | a :: b :: c :: d :: rest =>
    let va := b64Val a
    let vb := b64Val b
    if c = '=' then [va * 4 + vb / 16]
    else
      let vc := b64Val c
      if d = '=' then [va * 4 + vb / 16, vb % 16 * 16 + vc / 4]
      else (va * 4 + vb / 16) :: (vb % 16 * 16 + vc / 4)
        :: (vc % 4 * 64 + b64Val d) :: b64DecodeAux rest
  | _ => []

/-- Base64 decoding of a string to a byte list. -/
def base64Decode (s : String) : List Nat := b64DecodeAux s.data

/-- Truncation of a `Nat` to 32 bits. -/
def m32 (x : Nat) : Nat := x % 4294967296

/-- 32-bit right rotation. -/
def rotr32 (n x : Nat) : Nat := m32 (x / 2 ^ n + x % 2 ^ n * 2 ^ (32 - n))

/-- 32-bit right shift. -/
def shr32 (n x : Nat) : Nat := x / 2 ^ n

/-- 32-bit bitwise complement. -/
def not32 (x : Nat) : Nat := 4294967295 - x % 4294967296

/-- SHA-256 Σ0. -/
def bigS0 (x : Nat) : Nat := rotr32 2 x ^^^ rotr32 13 x ^^^ rotr32 22 x

/-- SHA-256 Σ1. -/
def bigS1 (x : Nat) : Nat := rotr32 6 x ^^^ rotr32 11 x ^^^ rotr32 25 x

/-- SHA-256 σ0. -/
def smallS0 (x : Nat) : Nat := rotr32 7 x ^^^ rotr32 18 x ^^^ shr32 3 x

/-- SHA-256 σ1. -/
def smallS1 (x : Nat) : Nat := rotr32 17 x ^^^ rotr32 19 x ^^^ shr32 10 x

/-- SHA-256 choice function. -/
def chF (x y z : Nat) : Nat := (x &&& y) ^^^ (not32 x &&& z)

/-- SHA-256 majority function. -/
def majF (x y z : Nat) : Nat := (x &&& y) ^^^ (x &&& z) ^^^ (y &&& z)

/-- The SHA-256 round constants. -/
def shaK : List Nat :=
  [1116352408, 1899447441, 3049323471, 3921009573, 961987163,
   1508970993, 2453635748, 2870763221, 3624381080, 310598401,
   607225278, 1426881987, 1925078388, 2162078206, 2614888103,
   3248222580, 3835390401, 4022224774, 264347078, 604807628,
   770255983, 1249150122, 1555081692, 1996064986, 2554220882,
   2821834349, 2952996808, 3210313671, 3336571891, 3584528711,
   113926993, 338241895, 666307205, 773529912, 1294757372,
   1396182291, 1695183700, 1986661051, 2177026350, 2456956037,
   2730485921, 2820302411, 3259730800, 3345764771, 3516065817,
   3600352804, 4094571909, 275423344, 430227734, 506948616,
   659060556, 883997877, 958139571, 1322822218, 1537002063,
   1747873779, 1955562222, 2024104815, 2227730452, 2361852424,
   2428436474, 2756734187, 3204031479, 3329325298]

/-- The SHA-256 initial hash state. -/
def shaH0 : List Nat :=
  [1779033703, 3144134277, 1013904242, 2773480762,
   1359893119, 2600822924, 528734635, 1541459225]

/-- Big-endian bytes of `n`, `k` bytes wide. -/
def beBytes : Nat → Nat → List Nat
  | 0, _ => []
  | k + 1, n => beBytes k (n / 256) ++ [n % 256]

/-- Groups bytes into big-endian 32-bit words. -/
def toWords : List Nat → List Nat
  | a :: b :: c :: d :: rest => (((a * 256 + b) * 256 + c) * 256 + d) :: toWords rest
  | _ => []

/-- SHA-256 padding: a 0x80 byte, zeros to 56 mod 64, then the bit
length as 8 big-endian bytes. -/
def shaPad (msg : List Nat) : List Nat :=
  let len := msg.length
  let padLen := (120 - (len + 1) % 64) % 64
  msg ++ 128 :: (List.replicate padLen 0 ++ beBytes 8 (len * 8))

/-- Splits a padded message into 64-byte blocks. -/
def chunk64 (l : List Nat) : List (List Nat) :=
  match l with
  | [] => []
  | c :: rest => (c :: rest).take 64 :: chunk64 ((c :: rest).drop 64)
termination_by l.length
decreasing_by simp [List.length_drop]; omega

/-- Extends the 16 words of a block to the 64-entry message schedule. -/
def extendW (w : Array Nat) : Array Nat :=
  (List.range 48).foldl
    (fun w2 j =>
      let i := j + 16
      w2.push (m32 (smallS1 (w2.getD (i - 2) 0) + w2.getD (i - 7) 0
        + smallS0 (w2.getD (i - 15) 0) + w2.getD (i - 16) 0))) w

/-- One SHA-256 compression round on the 8-word working state. -/
def shaRound (k wi : Nat) (st : List Nat) : List Nat :=
  match st with
  | [a, b, c, d, e, f, g, h] =>
    let t1 := m32 (h + bigS1 e + chF e f g + k + wi)
    let t2 := m32 (bigS0 a + majF a b c)
    [m32 (t1 + t2), a, b, c, m32 (d + t1), e, f, g]
  | st2 => st2

/-- SHA-256 compression of one 64-byte block into the hash state. -/
def shaCompress (h : List Nat) (block : List Nat) : List Nat :=
  let w := extendW (Array.mk (toWords block))
  let st := (List.range 64).foldl (fun st i => shaRound (shaK.getD i 0) (w.getD i 0) st) h
  List.zipWith (fun x y => m32 (x + y)) h st

/-- Modelled from the spec: SHA-256 (stdlib `hashlib.sha256`) of a byte
list, as the 32-byte digest. -/
def sha256 (msg : List Nat) : List Nat :=
  ((chunk64 (shaPad msg)).foldl shaCompress shaH0).foldr
    (fun w acc => beBytes 4 w ++ acc) []

/-- Modelled from the spec: HMAC-SHA256 (stdlib `hmac` as wrapped by the
base-class `self.hmac`) with byte-list key and message. -/
def hmacSha256 (key msg : List Nat) : List Nat :=
  let key2 := if 64 < key.length then sha256 key else key
  let key3 := key2 ++ List.replicate (64 - key2.length) 0
  sha256 ((key3.map (fun b => b ^^^ 92)) ++ sha256 ((key3.map (fun b => b ^^^ 54)) ++ msg))

/-- The four components returned by `sign`. -/
structure SignedRequest where
  url : String
  method : String
  body : Option String
  headers : Option (List (String × String))
  deriving DecidableEq, Repr

/-- `sign` (gdax.py lines 508-534), with the base-class helpers
(`implode_params`, `omit`, `urlencode`, `json`, `hmac`, base64, the
credential check of `check_required_credentials`) modelled from the
spec. `nonce` is the clock value `self.nonce()` returns. For a GET with
leftover query parameters the query string joins the path; for other
methods leftover parameters become the JSON body and the signing
payload. The prehash is `nonce + method + request + payload`, signed
with HMAC-SHA256 under the base64-decoded secret, and the signature is
the base64 digest. -/
def sign (apiKey secret password : String) (nonce : Nat) (path : List PathSeg)
    (api method : String) (params : List (String × PVal))
    (body : Option String) (headers : Option (List (String × String))) :
    Except CcxtErr SignedRequest :=
  let request0 := "/" ++ implodeParams path params
  let query := omitKeys params (extractParams path)
  let request :=
    if method = "GET" then
      if query.isEmpty then request0 else request0 ++ "?" ++ urlencode query
    else request0
  let url := "https://api.gdax.com" ++ request
  if api = "private" then
    if apiKey.isEmpty || secret.isEmpty || password.isEmpty then
      Except.error (CcxtErr.authenticationError
        "gdax requires apiKey, secret and password credentials")
    else
      let nonceS := toString nonce
      let body2 := if method = "GET" then body
        else if query.isEmpty then body else some (dictJson query)
      let payload := if method = "GET" then ""
        else if query.isEmpty then "" else dictJson query
      let what := nonceS ++ method ++ request ++ payload
      let signature := base64Encode (hmacSha256 (base64Decode secret) (utf8Bytes what))
      Except.ok
        { url := url, method := method, body := body2
          headers := some
            [("CB-ACCESS-KEY", apiKey), ("CB-ACCESS-SIGN", signature),
             ("CB-ACCESS-TIMESTAMP", nonceS), ("CB-ACCESS-PASSPHRASE", password),
             ("Content-Type", "application/json")] }
  else Except.ok { url := url, method := method, body := body, headers := headers }

/-- Decidable equality of `Except` results, used to evaluate the
embedding at concrete inputs. -/
instance {e a : Type} [DecidableEq e] [DecidableEq a] : DecidableEq (Except e a) := fun x y =>
  match x, y with
  | Except.error v, Except.error w =>
    if h : v = w then Decidable.isTrue (congrArg Except.error h)
    else Decidable.isFalse (fun hh => h (Except.error.inj hh))
  | Except.ok v, Except.ok w =>
    if h : v = w then Decidable.isTrue (congrArg Except.ok h)
    else Decidable.isFalse (fun hh => h (Except.ok.inj hh))
  | Except.error _, Except.ok _ => Decidable.isFalse (fun hh => Except.noConfusion hh)
  | Except.ok _, Except.error _ => Decidable.isFalse (fun hh => Except.noConfusion hh)

/-! ## Theorems -/

/-- Claim C1: for every raw OHLCV row of the exchange-native shape
`[time, low, high, open, close, volume]`, `parse_ohlcv` returns the
canonical row `[time*1000, open, high, low, close, volume]`; in
particular parsing `[t, 100, 110, 90, 105, 50]` yields
`[t*1000, 90, 110, 100, 105, 50]`. -/
theorem parse_ohlcv_reorders (t lo hi op cl vo : ℚ) (rest : List ℚ) :
    parse_ohlcv (t :: lo :: hi :: op :: cl :: vo :: rest)
      = some [t * 1000, op, hi, lo, cl, vo]
    ∧ parse_ohlcv [t, 100, 110, 90, 105, 50]
      = some [t * 1000, 90, 110, 100, 105, 50] := by
  constructor <;> rfl

/-- Claim C5: every market returned by `fetch_markets` has
`symbol = base ++ "/" ++ quote`, with base and quote taken from the raw
`base_currency` and `quote_currency` fields, and `precision.amount = 8`. -/
theorem fetch_markets_symbol_precision (toF : String → ℚ) (pfs : String → ℤ)
    (markets : List RawMarket) (m : Market)
    (hm : m ∈ fetch_markets toF pfs markets) :
    m.symbol = m.base ++ "/" ++ m.quote ∧ m.precision_amount = 8
    ∧ ∃ raw ∈ markets, m.base = raw.base_currency ∧ m.quote = raw.quote_currency := by
  rcases List.mem_map.mp hm with ⟨raw, hraw, hparse⟩
  subst hparse
  exact ⟨rfl, rfl, raw, hraw, rfl, rfl⟩

/-- Witness for C5 at a concrete market list. -/
theorem fetch_markets_symbol_precision_witness :
    (parse_market (fun _ => 0) (fun _ => 2) rawMarketBtcUsd).symbol
        = (parse_market (fun _ => 0) (fun _ => 2) rawMarketBtcUsd).base ++ "/"
            ++ (parse_market (fun _ => 0) (fun _ => 2) rawMarketBtcUsd).quote
    ∧ (parse_market (fun _ => 0) (fun _ => 2) rawMarketBtcUsd).precision_amount = 8
    ∧ ∃ raw ∈ [rawMarketBtcUsd],
        (parse_market (fun _ => 0) (fun _ => 2) rawMarketBtcUsd).base = raw.base_currency
        ∧ (parse_market (fun _ => 0) (fun _ => 2) rawMarketBtcUsd).quote = raw.quote_currency :=
  fetch_markets_symbol_precision (fun _ => 0) (fun _ => 2) [rawMarketBtcUsd]
    (parse_market (fun _ => 0) (fun _ => 2) rawMarketBtcUsd)
    (List.mem_singleton.mpr rfl)

/-- Claim C2: the trade parser inverts the exchange's raw side tag — a
raw side equal to "buy" yields normalized side "sell", and any other raw
side (including "sell") yields normalized side "buy". -/
theorem parse_trade_side_inverted (p8601 : String → Option ℤ) (iso : ℤ → String)
    (marketsById : List (String × Market)) (marketArg : Option Market)
    (trade : RawTrade) :
    (trade.side = "buy" →
      (parse_trade p8601 iso marketsById marketArg trade).side = "sell")
    ∧ (trade.side ≠ "buy" →
      (parse_trade p8601 iso marketsById marketArg trade).side = "buy") := by
  constructor <;> intro h <;> simp [parse_trade, h]

/-- Witness for C2: the concrete raw side "buy" parses to "sell", and the
raw side "sell" parses to "buy". -/
theorem parse_trade_side_inverted_witness :
    (parse_trade (fun _ => Option.none) (fun _ => "") [] Option.none
        rawTradeBuy).side = "sell"
    ∧ (parse_trade (fun _ => Option.none) (fun _ => "") [] Option.none
        { rawTradeBuy with side := "sell" }).side = "buy" :=
  ⟨(parse_trade_side_inverted (fun _ => Option.none) (fun _ => "") [] Option.none
      rawTradeBuy).1 rfl,
   (parse_trade_side_inverted (fun _ => Option.none) (fun _ => "") [] Option.none
      { rawTradeBuy with side := "sell" }).2 (by decide)⟩

/-- Claim C3: a parsed order's `remaining` equals `amount - filled` when
both the resolved amount and `filled` are present, and is null when
either is absent; the difference is the exact (possibly negative)
subtraction, never clamped. -/
theorem parse_order_remaining (p8601 : String → Option ℤ) (iso : ℤ → String)
    (marketsById : List (String × Market)) (marketArg : Option Market)
    (order : RawOrder) :
    (∀ a f, (parse_order p8601 iso marketsById marketArg order).amount = some a →
      (parse_order p8601 iso marketsById marketArg order).filled = some f →
      (parse_order p8601 iso marketsById marketArg order).remaining = some (a - f))
    ∧ ((parse_order p8601 iso marketsById marketArg order).amount = Option.none
        ∨ (parse_order p8601 iso marketsById marketArg order).filled = Option.none →
      (parse_order p8601 iso marketsById marketArg order).remaining = Option.none) := by
  rcases hsz : order.size with _ | s <;>
    rcases hfu : order.funds with _ | f <;>
      rcases hsp : order.specified_funds with _ | w <;>
        rcases hfl : order.filled_size with _ | fl <;>
          constructor <;>
            simp_all [parse_order]

/-- Witness for C3: amount 5 and filled 2 give remaining 3; amount 1 and
filled 3 give remaining -2 (not clamped to zero). -/
theorem parse_order_remaining_witness :
    (parse_order (fun _ => Option.none) (fun _ => "") [] Option.none
        { rawOrderBase with size := some 5, filled_size := some 2 }).remaining
      = some 3
    ∧ (parse_order (fun _ => Option.none) (fun _ => "") [] Option.none
        { rawOrderBase with size := some 1, filled_size := some 3 }).remaining
      = some (-2) := by
  constructor
  · have h := (parse_order_remaining (fun _ => Option.none) (fun _ => "") []
      Option.none { rawOrderBase with size := some 5, filled_size := some 2 }).1
      5 2 rfl rfl
    exact h.trans (by norm_num)
  · have h := (parse_order_remaining (fun _ => Option.none) (fun _ => "") []
      Option.none { rawOrderBase with size := some 1, filled_size := some 3 }).1
      1 3 rfl rfl
    exact h.trans (by norm_num)

/-- Claim C4: a parsed order's amount is the raw `size` when present,
falling back to `funds`, then to `specified_funds`, and is null when all
three are absent. -/
theorem parse_order_amount_fallbacks (p8601 : String → Option ℤ) (iso : ℤ → String)
    (marketsById : List (String × Market)) (marketArg : Option Market)
    (order : RawOrder) :
    (∀ s, order.size = some s →
      (parse_order p8601 iso marketsById marketArg order).amount = some s)
    ∧ (order.size = Option.none → ∀ f, order.funds = some f →
      (parse_order p8601 iso marketsById marketArg order).amount = some f)
    ∧ (order.size = Option.none → order.funds = Option.none →
        ∀ w, order.specified_funds = some w →
      (parse_order p8601 iso marketsById marketArg order).amount = some w)
    ∧ (order.size = Option.none → order.funds = Option.none →
        order.specified_funds = Option.none →
      (parse_order p8601 iso marketsById marketArg order).amount = Option.none) := by
  refine ⟨?_, ?_, ?_, ?_⟩ <;> intros <;> simp_all [parse_order]

/-- Witness for C4: the four fallback shapes at concrete orders — size
present wins, then funds, then specified_funds, then null. -/
theorem parse_order_amount_fallbacks_witness :
    (parse_order (fun _ => Option.none) (fun _ => "") [] Option.none
        { rawOrderBase with size := some 5, funds := some 7 }).amount = some 5
    ∧ (parse_order (fun _ => Option.none) (fun _ => "") [] Option.none
        { rawOrderBase with funds := some 7, specified_funds := some 9 }).amount
      = some 7
    ∧ (parse_order (fun _ => Option.none) (fun _ => "") [] Option.none
        { rawOrderBase with specified_funds := some 9 }).amount = some 9
    ∧ (parse_order (fun _ => Option.none) (fun _ => "") [] Option.none
        rawOrderBase).amount = Option.none :=
  ⟨(parse_order_amount_fallbacks (fun _ => Option.none) (fun _ => "") [] Option.none
      { rawOrderBase with size := some 5, funds := some 7 }).1 5 rfl,
   (parse_order_amount_fallbacks (fun _ => Option.none) (fun _ => "") [] Option.none
      { rawOrderBase with funds := some 7, specified_funds := some 9 }).2.1 rfl 7 rfl,
   (parse_order_amount_fallbacks (fun _ => Option.none) (fun _ => "") [] Option.none
      { rawOrderBase with specified_funds := some 9 }).2.2.1 rfl rfl 9 rfl,
   (parse_order_amount_fallbacks (fun _ => Option.none) (fun _ => "") [] Option.none
      rawOrderBase).2.2.2 rfl rfl rfl⟩

/-- Omitting no keys keeps the parameter dict unchanged. -/
theorem omitKeys_nil (l : List (String × PVal)) : omitKeys l [] = l := by
  induction l with
  | nil => rfl
  | cons kv rest ih => simp [omitKeys, List.filter] at ih ⊢

/-- Claim C6: for private requests the signature header is the base64
HMAC-SHA256, under the base64-decoded secret, of
`nonce + method + path(+query if GET) + body-payload`, where the payload
is empty for GET requests or when there is no body; the headers are the
access key, the signature, the nonce as timestamp, the passphrase and a
JSON content-type. Stated for a literal path `p` and each of the four
method/query shapes. -/
theorem sign_private_hmac (apiKey secret password : String) (nonce : Nat)
    (p k : String) (v : PVal) (qs : List (String × PVal))
    (body : Option String) (headers : Option (List (String × String)))
    (hA : apiKey.isEmpty = false) (hS : secret.isEmpty = false)
    (hP : password.isEmpty = false) :
    (sign apiKey secret password nonce [PathSeg.lit p] "private" "GET" [] body headers
      = Except.ok
          { url := "https://api.gdax.com" ++ ("/" ++ p)
            method := "GET", body := body
            headers := some
              [("CB-ACCESS-KEY", apiKey),
               ("CB-ACCESS-SIGN", base64Encode (hmacSha256 (base64Decode secret)
                  (utf8Bytes (toString nonce ++ "GET" ++ ("/" ++ p) ++ "")))),
               ("CB-ACCESS-TIMESTAMP", toString nonce),
               ("CB-ACCESS-PASSPHRASE", password),
               ("Content-Type", "application/json")] })
    ∧ (sign apiKey secret password nonce [PathSeg.lit p] "private" "GET"
          ((k, v) :: qs) body headers
      = Except.ok
          { url := "https://api.gdax.com" ++ ("/" ++ p ++ "?" ++ urlencode ((k, v) :: qs))
            method := "GET", body := body
            headers := some
              [("CB-ACCESS-KEY", apiKey),
               ("CB-ACCESS-SIGN", base64Encode (hmacSha256 (base64Decode secret)
                  (utf8Bytes (toString nonce ++ "GET"
                    ++ ("/" ++ p ++ "?" ++ urlencode ((k, v) :: qs)) ++ "")))),
               ("CB-ACCESS-TIMESTAMP", toString nonce),
               ("CB-ACCESS-PASSPHRASE", password),
               ("Content-Type", "application/json")] })
    ∧ (sign apiKey secret password nonce [PathSeg.lit p] "private" "POST"
          ((k, v) :: qs) body headers
      = Except.ok
          { url := "https://api.gdax.com" ++ ("/" ++ p)
            method := "POST", body := some (dictJson ((k, v) :: qs))
            headers := some
              [("CB-ACCESS-KEY", apiKey),
               ("CB-ACCESS-SIGN", base64Encode (hmacSha256 (base64Decode secret)
                  (utf8Bytes (toString nonce ++ "POST" ++ ("/" ++ p)
                    ++ dictJson ((k, v) :: qs))))),
               ("CB-ACCESS-TIMESTAMP", toString nonce),
               ("CB-ACCESS-PASSPHRASE", password),
               ("Content-Type", "application/json")] })
    ∧ (sign apiKey secret password nonce [PathSeg.lit p] "private" "POST" [] body headers
      = Except.ok
          { url := "https://api.gdax.com" ++ ("/" ++ p)
            method := "POST", body := body
            headers := some
              [("CB-ACCESS-KEY", apiKey),
               ("CB-ACCESS-SIGN", base64Encode (hmacSha256 (base64Decode secret)
                  (utf8Bytes (toString nonce ++ "POST" ++ ("/" ++ p) ++ "")))),
               ("CB-ACCESS-TIMESTAMP", toString nonce),
               ("CB-ACCESS-PASSPHRASE", password),
               ("Content-Type", "application/json")] }) := by
  refine ⟨?_, ?_, ?_, ?_⟩ <;>
    simp [sign, omitKeys_nil, implodeParams, extractParams, hA, hS, hP]

/-- Witness for C6 at concrete credentials, nonce and path (the
GET-without-query shape). -/
theorem sign_private_hmac_witness :
    sign "k" "c2VjcmV0" "pw" 1618 [PathSeg.lit "time"] "private" "GET" []
        Option.none Option.none
      = Except.ok
          { url := "https://api.gdax.com" ++ ("/" ++ "time")
            method := "GET", body := Option.none
            headers := some
              [("CB-ACCESS-KEY", "k"),
               ("CB-ACCESS-SIGN", base64Encode (hmacSha256 (base64Decode "c2VjcmV0")
                  (utf8Bytes (toString 1618 ++ "GET" ++ ("/" ++ "time") ++ "")))),
               ("CB-ACCESS-TIMESTAMP", toString 1618),
               ("CB-ACCESS-PASSPHRASE", "pw"),
               ("Content-Type", "application/json")] } :=
  (sign_private_hmac "k" "c2VjcmV0" "pw" 1618 "time" "" PVal.pynone [] Option.none
      Option.none rfl rfl rfl).1

/-- A body the mini JSON parser accepts starts with an opening brace. -/
theorem jsonLoads_head (s : String) (obj : List (String × String))
    (h : jsonLoads s = some obj) : ∃ rest, s.data = openBrace :: rest := by
  unfold jsonLoads at h
  rcases hd : s.data with _ | ⟨c, rest⟩ <;> rw [hd] at h
  · simp at h
  · by_cases hc : c = openBrace
    · subst hc; exact ⟨rest, rfl⟩
    · simp [hc] at h

/-- Reduction of `handle_errors` on a 400 response whose body parses to
an object carrying a `message`: the result is the source's
classification chain on the message. -/
theorem handle_errors_message_chain (body : String)
    (obj : List (String × String)) (m : String)
    (hl : jsonLoads body = some obj) (hm : lookupStr obj "message" = some m) :
    handle_errors 400 body =
      (if strContains m "price too small" then
        Except.error (PyErr.ccxt (CcxtErr.invalidOrder ("gdax " ++ m)))
      else if strContains m "price too precise" then
        Except.error (PyErr.ccxt (CcxtErr.invalidOrder ("gdax " ++ m)))
      else if m = "Insufficient funds" then
        Except.error (PyErr.ccxt (CcxtErr.insufficientFunds ("gdax " ++ m)))
      else if m = "Invalid API Key" then
        Except.error (PyErr.ccxt (CcxtErr.authenticationError ("gdax " ++ m)))
      else
        Except.error (PyErr.ccxt (CcxtErr.exchangeError ("gdax " ++ m)))) := by
  obtain ⟨rest, hbd⟩ := jsonLoads_head body obj hl
  unfold handle_errors
  rw [hbd]
  simp [hl, hm]

/-- Claim C7 (amended): on an HTTP 400 whose body is a JSON object with
a message field, the classifier raises InvalidOrder for messages
containing "price too small" or "price too precise", InsufficientFunds
for "Insufficient funds", AuthenticationError for "Invalid API Key",
and a generic ExchangeError carrying the message otherwise; a 400
response whose body is nonempty and does not start with an opening
brace raises a generic ExchangeError containing the raw body text
(a body starting with a brace that fails JSON parsing propagates the
JSON decode error instead, and an empty body an index error). -/
theorem handle_errors_400_classification (body : String)
    (obj : List (String × String)) (m : String) (c : Char) (rest : List Char) :
    ((jsonLoads body = some obj → lookupStr obj "message" = some m →
      ((strContains m "price too small" = true →
          handle_errors 400 body
            = Except.error (PyErr.ccxt (CcxtErr.invalidOrder ("gdax " ++ m))))
       ∧ (strContains m "price too precise" = true →
          handle_errors 400 body
            = Except.error (PyErr.ccxt (CcxtErr.invalidOrder ("gdax " ++ m))))
       ∧ (m = "Insufficient funds" →
          handle_errors 400 body
            = Except.error (PyErr.ccxt (CcxtErr.insufficientFunds ("gdax " ++ m))))
       ∧ (m = "Invalid API Key" →
          handle_errors 400 body
            = Except.error (PyErr.ccxt (CcxtErr.authenticationError ("gdax " ++ m))))
       ∧ (strContains m "price too small" = false →
          strContains m "price too precise" = false →
          m ≠ "Insufficient funds" → m ≠ "Invalid API Key" →
          handle_errors 400 body
            = Except.error (PyErr.ccxt (CcxtErr.exchangeError ("gdax " ++ m))))))
    ∧ (body.data = c :: rest → c ≠ openBrace →
        handle_errors 400 body
          = Except.error (PyErr.ccxt (CcxtErr.exchangeError ("gdax " ++ body))))
    ∧ (body.data = c :: rest → c = openBrace → jsonLoads body = Option.none →
        handle_errors 400 body = Except.error PyErr.jsonDecodeError)
    ∧ (body = "" → handle_errors 400 body = Except.error PyErr.indexError)) := by
  refine ⟨fun hl hm => ?_, fun hbd hc => ?_, fun hbd hc hl => ?_, fun hb => ?_⟩
  · have hred := handle_errors_message_chain body obj m hl hm
    refine ⟨fun h1 => ?_, fun h2 => ?_, fun h3 => ?_, fun h4 => ?_,
      fun h5a h5b h5c h5d => ?_⟩
    · rw [hred]; simp [h1]
    · rw [hred]
      cases hsm : strContains m "price too small" <;> simp [hsm, h2]
    · subst h3; rw [hred]; decide
    · subst h4; rw [hred]; decide
    · rw [hred]; simp [h5a, h5b, h5c, h5d]
  · unfold handle_errors
    rw [hbd]
    simp [hc]
  · subst hc
    unfold handle_errors
    rw [hbd]
    simp [hl]
  · subst hb
    decide

/-- Witness for C7 at concrete bodies: the JSON body with message
"Insufficient funds" raises InsufficientFunds, and the non-JSON body
"oops" raises a generic ExchangeError carrying the body. -/
theorem handle_errors_400_classification_witness :
    handle_errors 400 "\x7b\"message\":\"Insufficient funds\"\x7d"
      = Except.error (PyErr.ccxt (CcxtErr.insufficientFunds
          ("gdax " ++ "Insufficient funds")))
    ∧ handle_errors 400 "oops"
      = Except.error (PyErr.ccxt (CcxtErr.exchangeError ("gdax " ++ "oops"))) :=
  ⟨((handle_errors_400_classification "\x7b\"message\":\"Insufficient funds\"\x7d"
        [("message", "Insufficient funds")] "Insufficient funds" 'o'
        "ops".data).1 (by decide) (by decide)).2.2.1 rfl,
   (handle_errors_400_classification "oops" [] "Insufficient funds" 'o'
        "ops".data).2.1 rfl (by decide)⟩

/-- Counterexample to C7 as stated: the body consisting of a single
opening brace is not JSON, yet the classifier does not raise an
ExchangeError containing the raw body — the JSON decode failure
propagates instead. -/
theorem handle_errors_400_nonjson_counterexample :
    handle_errors 400 (String.singleton openBrace) = Except.error PyErr.jsonDecodeError
    ∧ handle_errors 400 (String.singleton openBrace)
        ≠ Except.error (PyErr.ccxt (CcxtErr.exchangeError
            ("gdax " ++ String.singleton openBrace))) := by
  refine ⟨rfl, fun h => ?_⟩
  rw [show handle_errors 400 (String.singleton openBrace)
      = Except.error PyErr.jsonDecodeError from rfl] at h
  simp at h

/-- Claim C9: create order with type "limit" and no price is not
rejected locally — the POST-orders request is issued with a null price —
and the rejection arrives as InvalidOrder through the classification of
the server's price-related 400 message. -/
theorem create_order_limit_no_price (marketIdOf : String → String)
    (market side : String) (amount : ℚ) (params : List (String × PVal))
    (body : String) (obj : List (String × String)) (m : String)
    (hl : jsonLoads body = some obj) (hm : lookupStr obj "message" = some m)
    (hp : strContains m "price too small" = true
          ∨ strContains m "price too precise" = true) :
    create_order marketIdOf market "limit" side amount Option.none params
      = ("privatePostOrders",
          extend [("product_id", PVal.s (marketIdOf market)), ("side", PVal.s side),
                  ("size", PVal.n amount), ("type", PVal.s "limit"),
                  ("price", PVal.pynone)] params)
    ∧ handle_errors 400 body
      = Except.error (PyErr.ccxt (CcxtErr.invalidOrder ("gdax " ++ m))) := by
  constructor
  · simp [create_order]
  · rw [handle_errors_message_chain body obj m hl hm]
    rcases hp with h | h
    · simp [h]
    · cases hsm : strContains m "price too small" <;> simp [hsm, h]

/-- Witness for C9 at a concrete order and a concrete 400 body
`\x7b"message":"price too small"\x7d`. -/
theorem create_order_limit_no_price_witness :
    create_order (fun s => s) "BTC-USD" "limit" "buy" 1 Option.none []
      = ("privatePostOrders",
          extend [("product_id", PVal.s "BTC-USD"), ("side", PVal.s "buy"),
                  ("size", PVal.n 1), ("type", PVal.s "limit"),
                  ("price", PVal.pynone)] [])
    ∧ handle_errors 400 "\x7b\"message\":\"price too small\"\x7d"
      = Except.error (PyErr.ccxt (CcxtErr.invalidOrder
          ("gdax " ++ "price too small"))) :=
  create_order_limit_no_price (fun s => s) "BTC-USD" "buy" 1 []
    "\x7b\"message\":\"price too small\"\x7d" [("message", "price too small")]
    "price too small" (by decide) (by decide) (Or.inl (by decide))

/-- Claim C10: cancel order calls the DELETE-order endpoint with the
parameter set holding exactly the id; the symbol argument and the extra
params are discarded. -/
theorem cancel_order_discards_args (id : String) (symbol : Option String)
    (params : List (String × PVal)) :
    cancel_order id symbol params = ("privateDeleteOrdersId", [("id", PVal.s id)]) :=
  rfl

/-- Claim C8: with neither `payment_method_id` nor `coinbase_account_id`
among the extra params, deposit raises NotSupported whatever the
transport would answer, while withdraw issues a crypto withdrawal whose
request carries the supplied address as `crypto_address`; for issued
requests a falsy response raises ExchangeError and a truthy response
with an id yields the id plus the raw response. -/
theorem deposit_withdraw_routing (currency : String) (amount : ℚ)
    (address : String) (tag : Option String) (params : List (String × PVal))
    (respond : String → List (String × PVal) → Resp)
    (i : PVal) (kvs : List (String × PVal)) (w : PVal)
    (hpm : hasKey params "payment_method_id" = false)
    (hcb : hasKey params "coinbase_account_id" = false) :
    (∀ respond2, deposit currency amount address params respond2
      = Except.error (PyErr.ccxt (CcxtErr.notSupported
          "gdax deposit() requires one of `coinbase_account_id` or `payment_method_id` extra params")))
    ∧ withdraw currency amount address tag params respond
      = fundingOutcome "withdraw" (respond "privatePostWithdrawalsCrypto"
          (extend [("currency", PVal.s currency), ("amount", PVal.n amount),
                   ("crypto_address", PVal.s address)] params))
    ∧ withdraw currency amount address tag params (fun _ _ => Resp.pynone)
      = Except.error (PyErr.ccxt (CcxtErr.exchangeError "gdax withdraw() error: null"))
    ∧ withdraw currency amount address tag params
        (fun _ _ => Resp.dict (("id", i) :: kvs))
      = Except.ok { info := Resp.dict (("id", i) :: kvs), id := i }
    ∧ deposit currency amount address (("payment_method_id", w) :: params)
        (fun _ _ => Resp.pynone)
      = Except.error (PyErr.ccxt (CcxtErr.exchangeError "gdax deposit() error: null"))
    ∧ deposit currency amount address (("payment_method_id", w) :: params)
        (fun _ _ => Resp.dict (("id", i) :: kvs))
      = Except.ok { info := Resp.dict (("id", i) :: kvs), id := i } := by
  refine ⟨fun respond2 => ?_, ?_, ?_, ?_, ?_, ?_⟩ <;>
    simp [deposit, withdraw, fundingOutcome, respFalsy, respJson, lookupPV,
      hasKey, hpm, hcb, extend]

/-- Witness for C8 at concrete arguments: deposit with no routing key is
NotSupported even though the transport would have answered, and
withdraw with no routing key and a `None` response is an ExchangeError. -/
theorem deposit_withdraw_routing_witness :
    deposit "BTC" 1 "1FixedAddr" [] (fun _ _ => Resp.dict [("id", PVal.s "r")])
      = Except.error (PyErr.ccxt (CcxtErr.notSupported
          "gdax deposit() requires one of `coinbase_account_id` or `payment_method_id` extra params"))
    ∧ withdraw "BTC" 1 "1FixedAddr" Option.none [] (fun _ _ => Resp.pynone)
      = Except.error (PyErr.ccxt (CcxtErr.exchangeError "gdax withdraw() error: null")) :=
  ⟨(deposit_withdraw_routing "BTC" 1 "1FixedAddr" Option.none []
      (fun _ _ => Resp.pynone) (PVal.s "r") [] (PVal.s "pm") rfl rfl).1
      (fun _ _ => Resp.dict [("id", PVal.s "r")]),
   (deposit_withdraw_routing "BTC" 1 "1FixedAddr" Option.none []
      (fun _ _ => Resp.pynone) (PVal.s "r") [] (PVal.s "pm") rfl rfl).2.2.1⟩
